import Mathlib

/-!
Verification of the AvitoNotify reminder/notification core against its
natural-language specification.

The Python sources are shallowly embedded:
 - instants (timezone-aware `datetime` values) are microseconds since the
   epoch, as `Int`;
 - local times of day (`datetime.time`) are microseconds since midnight
   of the local day, as `Nat`; a `datetime.time` that may carry a `tzinfo`
   (the digest path compares an aware time) is `PyTime`;
 - a timezone is its fixed UTC offset in microseconds (`ZoneInfo` lookup
   is resolved by the caller; `tz or "UTC"` becomes `Option.getD _ 0`);
 - the `reminders` table is a `List ReminderRow`, SQL statements become
   list transformations;
 - network sends that can raise become `Except Unit`-valued results, the
   success of a Telegram send to chat `c` is an oracle `sendOk c`;
 - the direction check of `_last_message_status` (whose HTTP errors are
   caught internally and folded into the result) is an oracle returning
   `ChatStatus`.
-/

/-- Microseconds in one day (the range of a local time of day). -/
def usPerDay : Nat := 86400000000

/-- Microseconds in one minute. -/
def usPerMinute : Nat := 60000000

/-- Local time of day of a UTC instant under a fixed-offset timezone:
`now_utc.astimezone(tz)` followed by taking the time of day. -/
def localTimeOfDay (nowUtc : Int) (tzOffset : Int) : Nat :=
  ((nowUtc + tzOffset) % (usPerDay : Int)).toNat

/-- Python `t.replace(second=0, microsecond=0)`: drop everything below the
minute. -/
def truncToMinute (t : Nat) : Nat :=
  t / usPerMinute * usPerMinute

/-- Helper to write a time of day `hh:mm` in microseconds. -/
def hm (h m : Nat) : Nat := (h * 60 + m) * usPerMinute

/-- Helper to write a time of day `hh:mm:ss` in microseconds. -/
def hms (h m s : Nat) : Nat := ((h * 60 + m) * 60 + s) * 1000000

/-- Embedding of `_in_window` from `src/routes/webhook.py` (lines 131-140).
It receives an already-local naive time of day.  The Python guards are kept
in source order: `not start or not end`, then `start == end`, then
`start < end`. -/
def in_window (localT : Nat) (start stop : Option Nat) : Bool :=
  match start, stop with
  | none, _ => true
  | _, none => true
  | some s, some e =>
    if s == e then true
    else if s < e then decide (s ≤ localT ∧ localT < e)
    else decide (s ≤ localT ∨ localT < e)

/-- Embedding of `_within_hours` from `src/reminders.py` (lines 185-195).
It receives the UTC instant and the link timezone and converts itself:
`now_utc.astimezone(ZoneInfo(tz or "UTC")).timetz().replace(tzinfo=None)`.
Note that, unlike the webhook broadcaster, it does not truncate seconds or
microseconds, and it has no separate `start == end` guard: that case falls
into the `start <= end` branch. -/
def within_hours (nowUtc : Int) (start stop : Option Nat) (tz : Option Int) : Bool :=
  match start, stop with
  | none, _ => true
  | _, none => true
  | some s, some e =>
    let localT := localTimeOfDay nowUtc (tz.getD 0)
    if s ≤ e then decide (s ≤ localT ∧ localT < e)
    else decide (s ≤ localT ∨ localT < e)

/-- Variant of `within_hours` written after the specification's words
("local time ... truncated to minute granularity (seconds/microseconds
discarded)" before the comparison), kept only to compare against the
in-source evaluator.  Clearly named as the spec's version, not the code's. -/
def within_hours_minute_spec (nowUtc : Int) (start stop : Option Nat) (tz : Option Int) : Bool :=
  match start, stop with
  | none, _ => true
  | _, none => true
  | some s, some e =>
    let localT := truncToMinute (localTimeOfDay nowUtc (tz.getD 0))
    if s ≤ e then decide (s ≤ localT ∧ localT < e)
    else decide (s ≤ localT ∨ localT < e)

/-- Local time used by `_broadcast_to_working_chats` (webhook.py line 174):
`now_utc.astimezone(ZoneInfo(tzname)).time().replace(second=0, microsecond=0)`,
a naive time truncated to the minute. -/
def broadcast_local_now (nowUtc : Int) (tz : Option Int) : Nat :=
  truncToMinute (localTimeOfDay nowUtc (tz.getD 0))

/-- Python `datetime.time` value that may carry a `tzinfo` (aware) or not
(naive).  `micros` is the time of day; `tzoff` is the attached offset. -/
structure PyTime where
  micros : Nat
  tzoff : Option Int
deriving DecidableEq, Repr

/-- Local time computed by `morning_digest_tick` (reminders.py line 259):
`now_utc.astimezone(tz).timetz().replace(second=0, microsecond=0)`.
`timetz()` keeps the `tzinfo`, so the result is an aware time. -/
def digest_local (nowUtc : Int) (tz : Option Int) : PyTime :=
  ⟨truncToMinute (localTimeOfDay nowUtc (tz.getD 0)), some (tz.getD 0)⟩

/-- One row of the `notify.reminders` table. -/
structure ReminderRow where
  account_id : Nat
  avito_chat_id : String
  first_ts : Int
  last_reminder : Option Int
  avito_chat_title : Option String
deriving DecidableEq, Repr

/-- One row returned by the link queries (`_iter_links` in reminders.py,
the link SELECT of `_broadcast_to_working_chats` in webhook.py):
`tg_chat_id, muted, work_from, work_to, tz`. -/
structure LinkRow where
  tg_chat_id : Int
  muted : Bool
  work_from : Option Nat
  work_to : Option Nat
  tz : Option Int
deriving DecidableEq, Repr

/-- Key predicate of the `reminders` unique constraint
`(account_id, avito_chat_id)`. -/
def hasKey (acc : Nat) (chat : String) (r : ReminderRow) : Bool :=
  r.account_id == acc && r.avito_chat_id == chat

/-- Embedding of `_remove_reminder` (webhook.py lines 103-109) and of the
`DELETE FROM reminders` in the seller branch of `remind_loop`
(reminders.py lines 102-107). -/
def delete_reminder (store : List ReminderRow) (acc : Nat) (chat : String) : List ReminderRow :=
  store.filter fun r => !hasKey acc chat r

/-- Embedding of the `UPDATE reminders SET last_reminder = $1` rows of
`remind_loop` (reminders.py lines 79-83 and 92-98). -/
def set_last_reminder (store : List ReminderRow) (acc : Nat) (chat : String) (now : Int) :
    List ReminderRow :=
  store.map fun r => if hasKey acc chat r then {r with last_reminder := some now} else r

/-- Embedding of `title_to_save = None if (chat_title or "").startswith("#")
else chat_title` in `_add_reminder` (webhook.py line 118). -/
def titleToSave : Option String → Option String
  | none => none
  | some t => if t.startsWith "#" then none else some t

/-- The `ON CONFLICT ... DO UPDATE SET avito_chat_title =
COALESCE(EXCLUDED.avito_chat_title, notify.reminders.avito_chat_title)`
update applied to a conflicting row. -/
def coalesceTitle (t : Option String) (r : ReminderRow) : ReminderRow :=
  {r with avito_chat_title := match t with | some v => some v | none => r.avito_chat_title}

/-- Embedding of `_add_reminder` (webhook.py lines 116-128): an upsert on
the key `(account_id, avito_chat_id)`.  A fresh row gets
`first_ts = now()` and `last_reminder = NULL`; a conflicting row only has
its title coalesced — `first_ts` and `last_reminder` are never touched. -/
def add_reminder (store : List ReminderRow) (acc : Nat) (chat : String) (now : Int)
    (chat_title : Option String) : List ReminderRow :=
  let t := titleToSave chat_title
  if store.any (hasKey acc chat) then
    store.map fun r => if hasKey acc chat r then coalesceTitle t r else r
  else
    store ++ [⟨acc, chat, now, none, t⟩]

/-- One inbound webhook event, after `_parse_event` (webhook.py lines
84-95): `seller = value.user_id`, `author = value.author_id`.  `ts` is the
insertion instant (the SQL `now()` of the handling transaction) and
`title` the result of `_fetch_chat_title` (which never raises: it falls
back to `"#<chat_id>"`). -/
structure WebhookEvent where
  seller : Nat
  author : Nat
  ts : Int
  title : String
deriving DecidableEq, Repr

/-- The `first_ts` values of the open reminders of one conversation. -/
def firstTsList (store : List ReminderRow) (acc : Nat) (chat : String) : List Int :=
  (store.filter (hasKey acc chat)).map fun r => r.first_ts

/-- Embedding of `_notify_linked_chats_in_hours` (reminders.py lines
198-209).  Iterates the links in order: muted links are skipped, links
outside their working window are skipped, otherwise
`telegram.send_telegram_to` is awaited — it raises on any non-200
response (telegram.py lines 50-52) and nothing in the loop catches that,
so a failed send aborts the remaining links.  Returns the list of chats
actually delivered to and, on normal completion, the `sent` counter. -/
def notify_linked_chats_in_hours (sendOk : Int → Bool) (nowUtc : Int) :
    List LinkRow → List Int × Except Unit Nat
  | [] => ([], .ok 0)
  | l :: ls =>
    if l.muted then notify_linked_chats_in_hours sendOk nowUtc ls
    else if within_hours nowUtc l.work_from l.work_to l.tz then
      if sendOk l.tg_chat_id then
        match notify_linked_chats_in_hours sendOk nowUtc ls with
        | (ds, .ok n) => (l.tg_chat_id :: ds, .ok (n + 1))
        | (ds, .error e) => (l.tg_chat_id :: ds, .error e)
      else ([], .error ())
    else notify_linked_chats_in_hours sendOk nowUtc ls

/-- Loop body of `_broadcast_to_working_chats` (webhook.py lines 170-193)
over the rows already filtered by `WHERE l.muted = FALSE`: off-hours rows
are skipped (logged), otherwise `send_telegram_to` is awaited with no
try/except around it, so a raising send aborts the remaining rows. -/
def broadcastRows (sendOk : Int → Bool) (nowUtc : Int) :
    List LinkRow → List Int × Except Unit Unit
  | [] => ([], .ok ())
  | r :: rs =>
    if !in_window (broadcast_local_now nowUtc r.tz) r.work_from r.work_to then
      broadcastRows sendOk nowUtc rs
    else if sendOk r.tg_chat_id then
      match broadcastRows sendOk nowUtc rs with
      | (ds, res) => (r.tg_chat_id :: ds, res)
    else ([], .error ())

/-- Embedding of `_broadcast_to_working_chats` (webhook.py lines 150-193):
the SQL keeps only rows with `muted = FALSE`, then the loop body runs. -/
def broadcast_to_working_chats (sendOk : Int → Bool) (nowUtc : Int) (links : List LinkRow) :
    List Int × Except Unit Unit :=
  broadcastRows sendOk nowUtc (links.filter fun l => !l.muted)

/-- Store effect of `avito_webhook` (webhook.py lines 49-74) for one event
on conversation `(account_id, chat)`.  A seller reply (`author == seller`,
`_is_seller_reply`, line 65) deletes the reminder and returns before any
send.  Otherwise the handler first awaits `_notify_all_chats` (line 69, a
`_broadcast_to_working_chats` whose `send_telegram_to` raises on non-200)
and only then `_add_reminder` (line 73): a raising broadcast aborts the
request before the insert, so the reminder upsert happens only when the
broadcast completed.  `sendOk` is the transport state during this
request; the broadcast runs at the handling instant `e.ts`. -/
def avito_webhook (sendOk : Int → Bool) (links : List LinkRow) (store : List ReminderRow)
    (account_id : Nat) (chat : String) (e : WebhookEvent) : Except Unit (List ReminderRow) :=
  if e.author == e.seller then .ok (delete_reminder store account_id chat)
  else
    match (broadcast_to_working_chats sendOk e.ts links).2 with
    | .error err => .error err
    | .ok _ => .ok (add_reminder store account_id chat e.ts (some e.title))

/-- Sequential processing of a list of webhook events on one conversation.
Each event arrives in its own HTTP request: a handler that raises returns
a 500 for that request and leaves the store unchanged, and the next event
is still processed.  `sendOk t` is the transport state at instant `t`. -/
def process_events (sendOk : Int → Int → Bool) (links : List LinkRow) (account_id : Nat)
    (chat : String) : List ReminderRow → List WebhookEvent → List ReminderRow
  | store, [] => store
  | store, e :: es =>
    match avito_webhook (sendOk e.ts) links store account_id chat e with
    | .ok store' => process_events sendOk links account_id chat store' es
    | .error _ => process_events sendOk links account_id chat store es

/-- Result classification of `_last_message_status` (reminders.py lines
18-47).  Network errors and non-200 responses are caught inside the
function and folded into `unknown`, so the check itself never raises. -/
inductive ChatStatus where
  | buyer : ChatStatus
  | seller : ChatStatus
  | unknown : ChatStatus
deriving DecidableEq, Repr

/-- Value of `config.TELEGRAM_ADMIN_CHAT_ID` as `telegram.send_telegram`
reads it (telegram.py line 21).  `src/config.py` defines
`TELEGRAM_ADMIN_USER_ID` but never `TELEGRAM_ADMIN_CHAT_ID`, so the
attribute access fails: the attribute is absent, modelled as `none`. -/
def TELEGRAM_ADMIN_CHAT_ID : Option Int := none

/-- Default of `config.REMIND_AFTER_MIN` (config.py line 26), in minutes. -/
def REMIND_AFTER_MIN : Int := 15

/-- A message handed to the Telegram transport during a tick: either the
fallback notice `telegram.send_telegram` posts to the admin channel, or a
`send_telegram_to` delivery to a linked chat. -/
inductive Sent where
  | admin : Sent
  | toChat : Int → Sent
deriving DecidableEq, Repr

/-- External collaborators of one `remind_loop` tick.
`statusOf u c` is the outcome of `_last_message_status u c`;
`userOf` resolves `account_id` to `avito_user_id` (the `JOIN accounts`);
`linksOf` is the `_iter_links` read; `sendOk c` tells whether the
`send_telegram_to` HTTP call to chat `c` returns 200; `adminChatId` is
the `config.TELEGRAM_ADMIN_CHAT_ID` attribute (absent in config.py);
`adminHttpOk` tells whether the admin-channel HTTP call returns 200. -/
structure TickEnv where
  statusOf : Nat → String → ChatStatus
  userOf : Nat → Nat
  linksOf : Nat → List LinkRow
  sendOk : Int → Bool
  adminChatId : Option Int
  adminHttpOk : Bool

/-- Embedding of `telegram.send_telegram` (telegram.py lines 13-28): it
first reads `config.TELEGRAM_ADMIN_CHAT_ID` (an `AttributeError` if the
attribute is absent), then posts and raises on a non-200 response. -/
def send_telegram (adminChatId : Option Int) (adminHttpOk : Bool) : Except Unit Unit :=
  match adminChatId with
  | none => .error ()
  | some _ => if adminHttpOk then .ok () else .error ()

/-- Due-row predicate of `remind_loop` (reminders.py lines 58-63):
`last_reminder IS NULL OR $1 - last_reminder >= $2` with `$1 = now` and
`$2 = timedelta(minutes=REMIND_AFTER_MIN)`. -/
def isDue (now interval : Int) (r : ReminderRow) : Bool :=
  match r.last_reminder with
  | none => true
  | some p => decide (interval ≤ now - p)

/-- Body of `remind_loop` for one fetched row (reminders.py lines 67-107):
check the last-message direction, then
 - `buyer`: notify the in-hours links; only `if sent:` update
   `last_reminder = now`;
 - `unknown`: post the fallback notice via `send_telegram` (which reads
   the absent config attribute and otherwise raises on HTTP errors), then
   update `last_reminder = now`;
 - `seller`: delete the reminder.
Nothing catches exceptions of the sends or of the SQL, so an `.error`
aborts the whole loop.  Returns the messages handed to the transport and
either the updated store or the propagated exception. -/
def remindStep (env : TickEnv) (now : Int) (store : List ReminderRow) (row : ReminderRow) :
    List Sent × Except Unit (List ReminderRow) :=
  match env.statusOf (env.userOf row.account_id) row.avito_chat_id with
  | .buyer =>
    match notify_linked_chats_in_hours env.sendOk now (env.linksOf row.account_id) with
    | (ds, .error e) => (ds.map Sent.toChat, .error e)
    | (ds, .ok sent) =>
      (ds.map Sent.toChat,
        if sent != 0 then .ok (set_last_reminder store row.account_id row.avito_chat_id now)
        else .ok store)
  | .unknown =>
    match send_telegram env.adminChatId env.adminHttpOk with
    | .error e => ([], .error e)
    | .ok _ => ([Sent.admin], .ok (set_last_reminder store row.account_id row.avito_chat_id now))
  | .seller => ([], .ok (delete_reminder store row.account_id row.avito_chat_id))

/-- Outcome of one `remind_loop` tick: the transport messages, the rows
whose status was actually checked, the final store, and whether the loop
ran to completion (`false` = an uncaught exception aborted it). -/
structure TickResult where
  sents : List Sent
  examined : List ReminderRow
  store : List ReminderRow
  ok : Bool
deriving DecidableEq, Repr

/-- The `for row in rows:` loop of `remind_loop` over the due-row snapshot
fetched at the start of the tick.  A row whose processing raises stops
the loop; rows after it are never examined. -/
def remindRows (env : TickEnv) (now : Int) :
    List ReminderRow → List ReminderRow → TickResult
  | store, [] => ⟨[], [], store, true⟩
  | store, row :: rest =>
    match remindStep env now store row with
    | (s, .error _) => ⟨s, [row], store, false⟩
    | (s, .ok store') =>
      let t := remindRows env now store' rest
      ⟨s ++ t.sents, row :: t.examined, t.store, t.ok⟩

/-- Embedding of `remind_loop` (reminders.py lines 50-107): fetch the due
rows with one `now = datetime.now(timezone.utc)`, then process them. -/
def remind_loop (env : TickEnv) (now interval : Int) (store : List ReminderRow) : TickResult :=
  remindRows env now store (store.filter (isDue now interval))

/-- A row of the final store of a tick originates from a row of the
initial store, either unchanged or stamped with `last_reminder = now`
(the only value a tick ever writes into `last_reminder`). -/
def comesFrom (store : List ReminderRow) (now : Int) (r : ReminderRow) : Prop :=
  ∃ r0, r0 ∈ store ∧ (r = r0 ∨ r = {r0 with last_reminder := some now})

/-- C3 counterexample: the claim says both in-source evaluators are
always-open when `start == end`, but for the reminder tick's
`_within_hours` a present, equal pair such as 09:00-09:00 falls into the
`start <= end` branch and evaluates `start <= t < start`, which is false
at every instant — here at local 05:00 — while the webhook's `_in_window`
returns true on the same window. -/
theorem c3_start_eq_end_differs :
    within_hours ((hm 5 0 : Nat) : Int) (some (hm 9 0)) (some (hm 9 0)) (some 0) = false ∧
    in_window (hm 5 0) (some (hm 9 0)) (some (hm 9 0)) = true := by
  exact ⟨by decide, by decide⟩

/-- C3 (amended): window semantics of the two evaluators.  For every local
time `t`: an absent bound makes both evaluators return true; `start == end`
makes the webhook's `_in_window` return true but the reminder tick's
`_within_hours` return false; for `start < end` both are open iff
`start <= t < end`; for `start > end` both wrap midnight and are open iff
`t >= start` or `t < end`; and the spec's concrete spot checks hold for
the windows 09:00-18:00 and 22:00-06:00. -/
theorem c3_window_correctness :
    (∀ t e, in_window t none e = true) ∧
    (∀ t s, in_window t s none = true) ∧
    (∀ t s, in_window t (some s) (some s) = true) ∧
    (∀ t s e, s < e → (in_window t (some s) (some e) = true ↔ s ≤ t ∧ t < e)) ∧
    (∀ t s e, e < s → (in_window t (some s) (some e) = true ↔ s ≤ t ∨ t < e)) ∧
    (∀ n e tz, within_hours n none e tz = true) ∧
    (∀ n s tz, within_hours n s none tz = true) ∧
    (∀ n s tz, within_hours n (some s) (some s) tz = false) ∧
    (∀ n s e tz, s < e → (within_hours n (some s) (some e) tz = true ↔
        s ≤ localTimeOfDay n (tz.getD 0) ∧ localTimeOfDay n (tz.getD 0) < e)) ∧
    (∀ n s e tz, e < s → (within_hours n (some s) (some e) tz = true ↔
        s ≤ localTimeOfDay n (tz.getD 0) ∨ localTimeOfDay n (tz.getD 0) < e)) ∧
    (in_window (hm 9 0) (some (hm 9 0)) (some (hm 18 0)) = true ∧
     in_window (hm 17 59) (some (hm 9 0)) (some (hm 18 0)) = true ∧
     in_window (hm 8 59) (some (hm 9 0)) (some (hm 18 0)) = false ∧
     in_window (hm 18 0) (some (hm 9 0)) (some (hm 18 0)) = false) ∧
    (in_window (hm 23 0) (some (hm 22 0)) (some (hm 6 0)) = true ∧
     in_window (hm 5 59) (some (hm 22 0)) (some (hm 6 0)) = true ∧
     in_window (hm 6 0) (some (hm 22 0)) (some (hm 6 0)) = false ∧
     in_window (hm 21 59) (some (hm 22 0)) (some (hm 6 0)) = false) := by
  refine ⟨?_, ?_, ?_, ?_, ?_, ?_, ?_, ?_, ?_, ?_, ?_, ?_⟩
  · intro t e; cases e <;> rfl
  · intro t s; cases s <;> rfl
  · intro t s; simp [in_window]
  · intro t s e h
    have hne : s ≠ e := Nat.ne_of_lt h
    simp [in_window, hne, h]
  · intro t s e h
    have hne : s ≠ e := (Nat.ne_of_lt h).symm
    have hnl : ¬s < e := by omega
    simp [in_window, hne, hnl]
  · intro n e tz; cases e <;> rfl
  · intro n s tz; cases s <;> rfl
  · intro n s tz; simp [within_hours]
  · intro n s e tz h
    have hle : s ≤ e := Nat.le_of_lt h
    simp [within_hours, hle]
  · intro n s e tz h
    have hnle : ¬s ≤ e := by omega
    simp [within_hours, hnle]
  · exact ⟨by decide, by decide, by decide, by decide⟩
  · exact ⟨by decide, by decide, by decide, by decide⟩

/-- C3 witness: the amended characterizations evaluated at concrete
inputs, discharging each hypothesis. -/
theorem c3_window_correctness_witness :
    (in_window 5 (some 3) (some 9) = true ↔ 3 ≤ 5 ∧ 5 < 9) ∧
    within_hours 0 (some 4) (some 4) (some 0) = false ∧
    (within_hours 7 (some 9) (some 2) (some 0) = true ↔
        9 ≤ localTimeOfDay 7 ((some 0).getD 0) ∨ localTimeOfDay 7 ((some 0).getD 0) < 2) := by
  obtain ⟨-, -, -, h4, -, -, -, h8, -, h10, -, -⟩ := c3_window_correctness
  exact ⟨h4 5 3 9 (by decide), h8 0 4 (some 0), h10 7 9 2 (some 0) (by decide)⟩

/-- C10 counterexample: on the window 09:00-09:00 the two in-source
evaluators disagree at every instant — here at UTC midnight — so they do
not compute the same predicate. -/
theorem c10_evaluators_differ :
    in_window (localTimeOfDay 0 0) (some (hm 9 0)) (some (hm 9 0)) = true ∧
    within_hours 0 (some (hm 9 0)) (some (hm 9 0)) (some 0) = false := by
  exact ⟨by decide, by decide⟩

/-- C10 (amended): given the same instant, window and timezone — hence the
same untruncated local time of day — the webhook's `_in_window` and the
reminder tick's `_within_hours` return the same boolean whenever the two
bounds are not both present and equal; in the excluded case they disagree
(see the counterexample). -/
theorem c10_evaluators_agree (now : Int) (tz : Option Int) (start stop : Option Nat)
    (h : start.isSome = true → stop.isSome = true → start ≠ stop) :
    in_window (localTimeOfDay now (tz.getD 0)) start stop = within_hours now start stop tz := by
  cases start with
  | none => cases stop <;> rfl
  | some s =>
    cases stop with
    | none => rfl
    | some e =>
      have hne : s ≠ e := by
        intro he
        exact h rfl rfl (by rw [he])
      by_cases hlt : s < e
      · have hle : s ≤ e := Nat.le_of_lt hlt
        simp [in_window, within_hours, hne, hlt, hle]
      · have hnle : ¬s ≤ e := by omega
        simp [in_window, within_hours, hne, hlt, hnle]

/-- C10 witness: agreement evaluated on the window 09:00-18:00 at UTC
midnight. -/
theorem c10_evaluators_agree_witness :
    in_window (localTimeOfDay 0 ((some 0).getD 0)) (some (hm 9 0)) (some (hm 18 0)) =
      within_hours 0 (some (hm 9 0)) (some (hm 18 0)) (some 0) :=
  c10_evaluators_agree 0 (some 0) (some (hm 9 0)) (some (hm 18 0)) (by decide)

/-- C9 counterexample: the reminder tick's `_within_hours` compares the
untruncated local time.  At UTC instant 00:00:45 with the window
00:00:30-01:00 it answers true, while the specification's
truncate-to-minute evaluation answers false, so seconds are not discarded
before the comparison on the reminder-tick path. -/
theorem c9_seconds_not_discarded :
    within_hours ((hms 0 0 45 : Nat) : Int) (some (hms 0 0 30)) (some (hm 1 0)) (some 0) = true ∧
    within_hours_minute_spec ((hms 0 0 45 : Nat) : Int) (some (hms 0 0 30)) (some (hm 1 0))
      (some 0) = false := by
  exact ⟨by decide, by decide⟩

/-- Shifting an instant by less than the remainder of its local minute
does not change the local time of day beyond that shift. -/
theorem localTimeOfDay_add_sub_minute (n off : Int) (d : Nat)
    (hd : localTimeOfDay n off % usPerMinute + d < usPerMinute) :
    localTimeOfDay (n + d) off = localTimeOfDay n off + d := by
  unfold localTimeOfDay usPerMinute at *
  unfold usPerDay at *
  omega

/-- Truncation to the minute absorbs shifts inside the same minute. -/
theorem truncToMinute_add_sub_minute (t : Nat) (d : Nat)
    (hd : t % usPerMinute + d < usPerMinute) :
    truncToMinute (t + d) = truncToMinute t := by
  unfold truncToMinute usPerMinute at *
  omega

/-- C9 (amended): the broadcast gate and the digest's local minute are
computed from the minute-truncated local time, so any sub-minute shift of
the instant leaves them unchanged; the reminder tick's `_within_hours`,
however, compares the untruncated local time of day (seconds and
microseconds retained), as the counterexample shows. -/
theorem c9_minute_truncation (n : Int) (tz : Option Int) (d : Nat)
    (hd : localTimeOfDay n (tz.getD 0) % usPerMinute + d < usPerMinute) :
    (∀ wf wt, in_window (broadcast_local_now (n + d) tz) wf wt =
        in_window (broadcast_local_now n tz) wf wt) ∧
    digest_local (n + d) tz = digest_local n tz ∧
    (∀ s e, within_hours n (some s) (some e) tz =
        (if s ≤ e then
          decide (s ≤ localTimeOfDay n (tz.getD 0) ∧ localTimeOfDay n (tz.getD 0) < e)
         else
          decide (s ≤ localTimeOfDay n (tz.getD 0) ∨ localTimeOfDay n (tz.getD 0) < e))) := by
  have hloc : localTimeOfDay (n + d) (tz.getD 0) = localTimeOfDay n (tz.getD 0) + d :=
    localTimeOfDay_add_sub_minute n (tz.getD 0) d hd
  have htr : truncToMinute (localTimeOfDay n (tz.getD 0) + d) =
      truncToMinute (localTimeOfDay n (tz.getD 0)) :=
    truncToMinute_add_sub_minute _ d hd
  refine ⟨?_, ?_, ?_⟩
  · intro wf wt
    rw [broadcast_local_now, broadcast_local_now, hloc, htr]
  · rw [digest_local, digest_local, hloc, htr]
  · intro s e; rfl

/-- C9 witness: a 30-second shift of the instant does not change the
digest's local minute. -/
theorem c9_minute_truncation_witness :
    digest_local ((0 : Int) + (30000000 : Nat)) none = digest_local 0 none :=
  (c9_minute_truncation 0 none 30000000 (by decide)).2.1

/-- A fresh insert: when the conversation has no open reminder, the upsert
appends one row with `first_ts = now`. -/
theorem firstTsList_add_fresh {store : List ReminderRow} {acc : Nat} {chat : String}
    {t : Int} {title : Option String} (h : firstTsList store acc chat = []) :
    firstTsList (add_reminder store acc chat t title) acc chat = [t] := by
  have hf : store.filter (hasKey acc chat) = [] := by
    have := h
    unfold firstTsList at this
    exact List.map_eq_nil_iff.mp this
  have ha : store.any (hasKey acc chat) = false := by
    cases hca : store.any (hasKey acc chat) with
    | false => rfl
    | true =>
      obtain ⟨x, hx, hpx⟩ := List.any_eq_true.mp hca
      have hmem : x ∈ store.filter (hasKey acc chat) := List.mem_filter.mpr ⟨hx, hpx⟩
      rw [hf] at hmem
      cases hmem
  unfold add_reminder
  rw [ha]
  simp [firstTsList, List.filter_append, hf, hasKey]

/-- A conflicting upsert: when the conversation already has an open
reminder, only the title is coalesced — the `first_ts` values of the
conversation are untouched. -/
theorem firstTsList_map_coalesce (acc : Nat) (chat : String) (tt : Option String) :
    ∀ store : List ReminderRow,
      firstTsList (store.map fun r => if hasKey acc chat r then coalesceTitle tt r else r)
        acc chat = firstTsList store acc chat
  | [] => rfl
  | r :: rs => by
    have ih := firstTsList_map_coalesce acc chat tt rs
    by_cases hk : hasKey acc chat r = true
    · have hk2 : hasKey acc chat (coalesceTitle tt r) = true := by
        simpa [hasKey, coalesceTitle] using hk
      simp [firstTsList, List.filter_cons, hk, hk2, coalesceTitle] at *
      exact ih
    · simp [firstTsList, List.filter_cons, hk] at *
      exact ih

/-- C1 counterexample: two buyer messages on one conversation, no seller
reply, starting with no open reminder.  The broadcast of the first
message (instant 5) raises and the transport recovers before the second
(instant 7): the first handler aborts before `_add_reminder` (webhook.py
runs `_notify_all_chats` at line 69 before `_add_reminder` at line 73),
so afterwards the single open reminder carries `first_ts = 7`, the
second message's insertion time — not the first's, as the claim
requires. -/
theorem c1_first_send_failure_shifts_first_ts :
    firstTsList
      (process_events (fun t _ => t != 5) [⟨1, false, none, none, none⟩] 1 "c" []
        [⟨10, 20, 5, "T"⟩, ⟨10, 20, 7, "U"⟩]) 1 "c" = [7] := by
  rfl

/-- Core of C1 (amended): processing further buyer messages whose
broadcasts complete preserves the single open reminder and its
`first_ts`. -/
theorem firstTsList_process_buyers (sendOk : Int → Int → Bool) (links : List LinkRow)
    (acc : Nat) (chat : String) (v : Int) :
    ∀ (es : List WebhookEvent) (store : List ReminderRow),
      (∀ x ∈ es, x.author ≠ x.seller) →
      (∀ x ∈ es, (broadcast_to_working_chats (sendOk x.ts) x.ts links).2 = .ok ()) →
      firstTsList store acc chat = [v] →
      firstTsList (process_events sendOk links acc chat store es) acc chat = [v]
  | [], _, _, _, h => h
  | e :: es, store, hb, hsend, h => by
    have hbe : (e.author == e.seller) = false :=
      beq_eq_false_iff_ne.mpr (hb e (List.mem_cons_self e es))
    have hne : firstTsList store acc chat ≠ [] := by rw [h]; simp
    have hf : store.filter (hasKey acc chat) ≠ [] := by
      intro hc
      exact hne (by simp [firstTsList, hc])
    have ha : store.any (hasKey acc chat) = true := by
      obtain ⟨x, hx⟩ := List.exists_mem_of_ne_nil _ hf
      exact List.any_eq_true.mpr
        ⟨x, (List.mem_filter.mp hx).1, (List.mem_filter.mp hx).2⟩
    have hbc := hsend e (List.mem_cons_self e es)
    have hstep : avito_webhook (sendOk e.ts) links store acc chat e =
        .ok (add_reminder store acc chat e.ts (some e.title)) := by
      unfold avito_webhook
      rw [hbe]
      simp only [Bool.false_eq_true, if_false]
      rw [hbc]
    have hadd : firstTsList (add_reminder store acc chat e.ts (some e.title)) acc chat = [v] := by
      unfold add_reminder
      rw [ha]
      simp only [if_true]
      rw [firstTsList_map_coalesce]
      exact h
    have hbs : ∀ x ∈ es, x.author ≠ x.seller :=
      fun x hx => hb x (List.mem_cons_of_mem _ hx)
    have hsends : ∀ x ∈ es, (broadcast_to_working_chats (sendOk x.ts) x.ts links).2 = .ok () :=
      fun x hx => hsend x (List.mem_cons_of_mem _ hx)
    unfold process_events
    rw [hstep]
    exact firstTsList_process_buyers sendOk links acc chat v es _ hbs hsends hadd

/-- C1 (amended): for every nonempty sequence of buyer-message events
(author is not the seller) on one conversation with no intervening seller
message, started with no open reminder for that conversation, if the
broadcast of every event completes without a send error — so no handler
aborts before its insert — then after processing the sequence exactly one
open reminder exists for the conversation and its `first_ts` is the
insertion time of the first buyer message; later buyer messages never
overwrite it.  Without that proviso a raising broadcast suppresses the
insert and `first_ts` ends at a later message's insertion time (see the
counterexample). -/
theorem c1_idempotent_reminder_creation (sendOk : Int → Int → Bool) (links : List LinkRow)
    (acc : Nat) (chat : String) (store : List ReminderRow)
    (e : WebhookEvent) (es : List WebhookEvent)
    (h0 : firstTsList store acc chat = [])
    (hb : e.author ≠ e.seller) (hbs : ∀ x ∈ es, x.author ≠ x.seller)
    (hsend : ∀ x ∈ e :: es,
      (broadcast_to_working_chats (sendOk x.ts) x.ts links).2 = .ok ()) :
    firstTsList (process_events sendOk links acc chat store (e :: es)) acc chat = [e.ts] := by
  have hbe : (e.author == e.seller) = false := beq_eq_false_iff_ne.mpr hb
  have hbc := hsend e (List.mem_cons_self e es)
  have hstep : avito_webhook (sendOk e.ts) links store acc chat e =
      .ok (add_reminder store acc chat e.ts (some e.title)) := by
    unfold avito_webhook
    rw [hbe]
    simp only [Bool.false_eq_true, if_false]
    rw [hbc]
  unfold process_events
  rw [hstep]
  exact firstTsList_process_buyers sendOk links acc chat e.ts es _ hbs
    (fun x hx => hsend x (List.mem_cons_of_mem _ hx)) (firstTsList_add_fresh h0)

/-- C1 witness: two buyer messages at instants 5 and 7 with all broadcasts
succeeding leave exactly one open reminder with `first_ts = 5`. -/
theorem c1_idempotent_reminder_creation_witness :
    firstTsList
      (process_events (fun _ _ => true) [⟨1, false, none, none, none⟩] 1 "c" []
        [⟨10, 20, 5, "T"⟩, ⟨10, 20, 7, "U"⟩]) 1 "c" = [5] :=
  c1_idempotent_reminder_creation (fun _ _ => true) [⟨1, false, none, none, none⟩] 1 "c" []
    ⟨10, 20, 5, "T"⟩ [⟨10, 20, 7, "U"⟩] rfl (by decide) (by decide)
    (by intro x hx; fin_cases hx <;> rfl)

/-- If every link of the account is muted or outside its working window,
the notify loop delivers to nobody and returns `sent = 0`. -/
theorem notify_all_ineligible (sendOk : Int → Bool) (now : Int) :
    ∀ links : List LinkRow,
      (∀ l ∈ links, l.muted = true ∨ within_hours now l.work_from l.work_to l.tz = false) →
      notify_linked_chats_in_hours sendOk now links = ([], .ok 0)
  | [], _ => rfl
  | l :: ls, h => by
    have ih := notify_all_ineligible sendOk now ls fun x hx => h x (List.mem_cons_of_mem _ hx)
    rcases h l (List.mem_cons_self l ls) with hmu | hw
    · simp [notify_linked_chats_in_hours, hmu, ih]
    · by_cases hmu : l.muted = true
      · simp [notify_linked_chats_in_hours, hmu, ih]
      · simp [notify_linked_chats_in_hours, hmu, hw, ih]

/-- Rows of the conversation carry `last_reminder = now` after the
update statement ran. -/
theorem set_last_reminder_key {store : List ReminderRow} {acc : Nat} {chat : String}
    {now : Int} {r : ReminderRow} (hr : r ∈ set_last_reminder store acc chat now)
    (hk : hasKey acc chat r = true) : r.last_reminder = some now := by
  obtain ⟨x, hx, hfx⟩ := List.mem_map.mp hr
  by_cases hkx : hasKey acc chat x = true
  · rw [← hfx]
    simp [hkx]
  · rw [← hfx] at hk
    simp [hkx] at hk

/-- C2 counterexample: two eligible destinations; the send to chat 1
succeeds, the send to chat 2 raises.  Chat 1 actually received the
re-notification, yet the exception propagates before the
`UPDATE ... SET last_reminder` line, so the tick aborts with the store —
including `last_reminder` — unchanged, contradicting the claim that
`last_reminder` is set whenever at least one destination received the
message. -/
theorem c2_delivery_then_failure :
    remindStep
      ⟨fun _ _ => .buyer, id,
        fun _ => [⟨1, false, none, none, none⟩, ⟨2, false, none, none, none⟩],
        fun c => c != 2, none, false⟩
      9 [⟨1, "a", 0, none, none⟩] ⟨1, "a", 0, none, none⟩ =
      ([Sent.toChat 1], .error ()) := by
  rfl

/-- C2 (amended): for a due reminder whose conversation-state check says
`buyer`: if every destination is muted or out of window the notify loop
returns `sent = 0` and the tick leaves the whole store (the reminder row
included) unchanged; if the notify loop completes with `sent != 0`,
`last_reminder` is set to the tick's `now` on the conversation's rows;
but if a send raises mid-loop the exception propagates and the store is
left unchanged even when earlier destinations already received the
message. -/
theorem c2_last_reminder_vs_delivery (env : TickEnv) (now : Int)
    (store : List ReminderRow) (row : ReminderRow)
    (hst : env.statusOf (env.userOf row.account_id) row.avito_chat_id = .buyer) :
    ((∀ l ∈ env.linksOf row.account_id,
        l.muted = true ∨ within_hours now l.work_from l.work_to l.tz = false) →
      remindStep env now store row = ([], .ok store)) ∧
    (∀ ds n,
      notify_linked_chats_in_hours env.sendOk now (env.linksOf row.account_id) = (ds, .ok n) →
      n ≠ 0 →
      remindStep env now store row =
        (ds.map Sent.toChat, .ok (set_last_reminder store row.account_id row.avito_chat_id now)) ∧
      ∀ r ∈ set_last_reminder store row.account_id row.avito_chat_id now,
        hasKey row.account_id row.avito_chat_id r = true → r.last_reminder = some now) ∧
    (∀ ds,
      notify_linked_chats_in_hours env.sendOk now (env.linksOf row.account_id) = (ds, .error ()) →
      remindStep env now store row = (ds.map Sent.toChat, .error ())) := by
  refine ⟨?_, ?_, ?_⟩
  · intro hall
    have hn := notify_all_ineligible env.sendOk now _ hall
    simp [remindStep, hst, hn]
  · intro ds n hn hnz
    refine ⟨?_, ?_⟩
    · simp [remindStep, hst, hn, hnz]
    · intro r hr hk
      exact set_last_reminder_key hr hk
  · intro ds hn
    simp [remindStep, hst, hn]

/-- C2 witness: both sides of the amended claim at concrete inputs — an
all-muted account leaves the store untouched, and a completed delivery to
one chat stamps `last_reminder = 9`. -/
theorem c2_last_reminder_vs_delivery_witness :
    (remindStep
        ⟨fun _ _ => .buyer, id, fun _ => [⟨5, true, none, none, none⟩], fun _ => true, none, false⟩
        9 [⟨1, "a", 0, none, none⟩] ⟨1, "a", 0, none, none⟩ =
      ([], .ok [⟨1, "a", 0, none, none⟩])) ∧
    (remindStep
        ⟨fun _ _ => .buyer, id, fun _ => [⟨5, false, none, none, none⟩], fun _ => true, none, false⟩
        9 [⟨1, "a", 0, none, none⟩] ⟨1, "a", 0, none, none⟩ =
      ([Sent.toChat 5], .ok (set_last_reminder [⟨1, "a", 0, none, none⟩] 1 "a" 9))) := by
  constructor
  · exact (c2_last_reminder_vs_delivery
      ⟨fun _ _ => .buyer, id, fun _ => [⟨5, true, none, none, none⟩], fun _ => true, none, false⟩
      9 [⟨1, "a", 0, none, none⟩] ⟨1, "a", 0, none, none⟩ rfl).1 (by decide)
  · exact ((c2_last_reminder_vs_delivery
      ⟨fun _ _ => .buyer, id, fun _ => [⟨5, false, none, none, none⟩], fun _ => true, none, false⟩
      9 [⟨1, "a", 0, none, none⟩] ⟨1, "a", 0, none, none⟩ rfl).2.1 [5] 1 rfl (by decide)).1

/-- C6: for a due reminder whose state check ends `unknown`, the claimed
behavior — fallback notice to the operator channel bypassing the
per-destination gating, then `last_reminder = now` — is what the branch
would do if `config.TELEGRAM_ADMIN_CHAT_ID` existed (second conjunct,
which holds for every `linksOf`, muted or not: the gating is indeed
bypassed).  But `src/config.py` defines no such attribute
(`TELEGRAM_ADMIN_CHAT_ID = none` here), so `telegram.send_telegram`
raises before sending or updating: the branch produces no message and no
store change and aborts the tick (first conjunct). -/
theorem c6_unknown_branch (env : TickEnv) (now : Int) (store : List ReminderRow)
    (row : ReminderRow)
    (hst : env.statusOf (env.userOf row.account_id) row.avito_chat_id = .unknown) :
    (env.adminChatId = TELEGRAM_ADMIN_CHAT_ID →
      remindStep env now store row = ([], .error ())) ∧
    (∀ a, env.adminChatId = some a → env.adminHttpOk = true →
      remindStep env now store row =
        ([Sent.admin], .ok (set_last_reminder store row.account_id row.avito_chat_id now)) ∧
      ∀ r ∈ set_last_reminder store row.account_id row.avito_chat_id now,
        hasKey row.account_id row.avito_chat_id r = true → r.last_reminder = some now) := by
  constructor
  · intro hnone
    rw [TELEGRAM_ADMIN_CHAT_ID] at hnone
    simp [remindStep, hst, send_telegram, hnone]
  · intro a hsome hok
    refine ⟨by simp [remindStep, hst, send_telegram, hsome, hok], ?_⟩
    intro r hr hk
    exact set_last_reminder_key hr hk

/-- C6 witness: with the repository's config the unknown branch evaluates
to an uncaught exception at a concrete due row; with the attribute
present it would stamp `last_reminder`. -/
theorem c6_unknown_branch_witness :
    (remindStep
        ⟨fun _ _ => .unknown, id, fun _ => [⟨5, false, none, none, none⟩], fun _ => true,
          TELEGRAM_ADMIN_CHAT_ID, true⟩
        9 [⟨1, "a", 0, none, none⟩] ⟨1, "a", 0, none, none⟩ = ([], .error ())) ∧
    (remindStep
        ⟨fun _ _ => .unknown, id, fun _ => [⟨5, true, none, none, none⟩], fun _ => true,
          some 77, true⟩
        9 [⟨1, "a", 0, none, none⟩] ⟨1, "a", 0, none, none⟩ =
      ([Sent.admin], .ok (set_last_reminder [⟨1, "a", 0, none, none⟩] 1 "a" 9))) := by
  constructor
  · exact (c6_unknown_branch
      ⟨fun _ _ => .unknown, id, fun _ => [⟨5, false, none, none, none⟩], fun _ => true,
        TELEGRAM_ADMIN_CHAT_ID, true⟩
      9 [⟨1, "a", 0, none, none⟩] ⟨1, "a", 0, none, none⟩ rfl).1 rfl
  · exact ((c6_unknown_branch
      ⟨fun _ _ => .unknown, id, fun _ => [⟨5, true, none, none, none⟩], fun _ => true,
        some 77, true⟩
      9 [⟨1, "a", 0, none, none⟩] ⟨1, "a", 0, none, none⟩ rfl).2 77 rfl rfl).1

/-- C4 counterexample: two due reminders; the single linked chat is
eligible but its send raises.  The first row's failure aborts the loop:
the second due row is never examined in that tick, contradicting the
claim that one row's failure never aborts the rest of the batch. -/
theorem c4_first_failure_aborts_batch :
    remind_loop
      ⟨fun _ _ => .buyer, id, fun _ => [⟨100, false, none, none, none⟩], fun _ => false,
        none, false⟩
      100 15 [⟨1, "a", 0, none, none⟩, ⟨2, "b", 0, none, none⟩] =
      ⟨[], [⟨1, "a", 0, none, none⟩],
        [⟨1, "a", 0, none, none⟩, ⟨2, "b", 0, none, none⟩], false⟩ ∧
    ([⟨1, "a", 0, none, none⟩, ⟨2, "b", 0, none, none⟩] : List ReminderRow).filter
      (isDue 100 15) =
      [⟨1, "a", 0, none, none⟩, ⟨2, "b", 0, none, none⟩] := by
  exact ⟨rfl, rfl⟩

/-- When every per-chat send returns 200, the notify loop always completes. -/
theorem notify_all_sends_ok (sendOk : Int → Bool) (now : Int) (hs : ∀ c, sendOk c = true) :
    ∀ links : List LinkRow,
      ∃ ds n, notify_linked_chats_in_hours sendOk now links = (ds, .ok n)
  | [] => ⟨[], 0, rfl⟩
  | l :: ls => by
    obtain ⟨ds, n, ih⟩ := notify_all_sends_ok sendOk now hs ls
    by_cases hmu : l.muted = true
    · exact ⟨ds, n, by simp [notify_linked_chats_in_hours, hmu, ih]⟩
    · by_cases hw : within_hours now l.work_from l.work_to l.tz = true
      · exact ⟨l.tg_chat_id :: ds, n + 1,
          by simp [notify_linked_chats_in_hours, hmu, hw, hs, ih]⟩
      · exact ⟨ds, n, by simp [notify_linked_chats_in_hours, hmu, hw, ih]⟩

/-- When every send succeeds and the admin channel is configured and
reachable, processing one row never raises. -/
theorem remindStep_ok (env : TickEnv) (now : Int) (hs : ∀ c, env.sendOk c = true)
    (ha : env.adminChatId.isSome = true) (hh : env.adminHttpOk = true)
    (store : List ReminderRow) (row : ReminderRow) :
    ∃ s store', remindStep env now store row = (s, .ok store') := by
  cases hst : env.statusOf (env.userOf row.account_id) row.avito_chat_id with
  | buyer =>
    obtain ⟨ds, n, hn⟩ := notify_all_sends_ok env.sendOk now hs (env.linksOf row.account_id)
    by_cases hz : n = 0
    · exact ⟨ds.map Sent.toChat, store, by simp [remindStep, hst, hn, hz]⟩
    · exact ⟨ds.map Sent.toChat,
        set_last_reminder store row.account_id row.avito_chat_id now,
        by simp [remindStep, hst, hn, hz]⟩
  | seller =>
    exact ⟨[], delete_reminder store row.account_id row.avito_chat_id,
      by simp [remindStep, hst]⟩
  | unknown =>
    obtain ⟨a, hsome⟩ := Option.isSome_iff_exists.mp ha
    exact ⟨[Sent.admin],
      set_last_reminder store row.account_id row.avito_chat_id now,
      by simp [remindStep, hst, send_telegram, hsome, hh]⟩

/-- Under the same conditions the tick loop examines every row of its
snapshot and completes. -/
theorem remindRows_all_ok (env : TickEnv) (now : Int) (hs : ∀ c, env.sendOk c = true)
    (ha : env.adminChatId.isSome = true) (hh : env.adminHttpOk = true) :
    ∀ (rows store : List ReminderRow),
      (remindRows env now store rows).examined = rows ∧
      (remindRows env now store rows).ok = true
  | [], _ => ⟨rfl, rfl⟩
  | row :: rest, store => by
    obtain ⟨s, store', hstep⟩ := remindStep_ok env now hs ha hh store row
    have ih := remindRows_all_ok env now hs ha hh rest store'
    constructor
    · simp [remindRows, hstep, ih.1]
    · simp [remindRows, hstep, ih.2]

/-- C4 (amended): one row's notification send failure aborts the
remaining rows of the tick (see the counterexample); only when every
Telegram send of the tick succeeds — the per-chat sends and, for rows
classified unknown, the admin-channel fallback — is every due reminder
examined and the loop guaranteed to complete.  (Network failures of the
chat-state query itself are caught inside `_last_message_status` and
merely classify the row `unknown`; they are the oracle's `unknown` value
here and abort nothing.) -/
theorem c4_all_sends_ok_examines_all (env : TickEnv) (now interval : Int)
    (store : List ReminderRow) (hs : ∀ c, env.sendOk c = true)
    (ha : env.adminChatId.isSome = true) (hh : env.adminHttpOk = true) :
    (remind_loop env now interval store).examined = store.filter (isDue now interval) ∧
    (remind_loop env now interval store).ok = true :=
  remindRows_all_ok env now hs ha hh (store.filter (isDue now interval)) store

/-- C4 witness: a two-row batch with all sends succeeding examines both
due rows and completes. -/
theorem c4_all_sends_ok_examines_all_witness :
    (remind_loop
        ⟨fun _ _ => .buyer, id, fun _ => [⟨100, false, none, none, none⟩], fun _ => true,
          some 77, true⟩
        100 15 [⟨1, "a", 0, none, none⟩, ⟨2, "b", 0, none, none⟩]).examined =
      ([⟨1, "a", 0, none, none⟩, ⟨2, "b", 0, none, none⟩] : List ReminderRow).filter
        (isDue 100 15) ∧
    (remind_loop
        ⟨fun _ _ => .buyer, id, fun _ => [⟨100, false, none, none, none⟩], fun _ => true,
          some 77, true⟩
        100 15 [⟨1, "a", 0, none, none⟩, ⟨2, "b", 0, none, none⟩]).ok = true :=
  c4_all_sends_ok_examines_all
    ⟨fun _ _ => .buyer, id, fun _ => [⟨100, false, none, none, none⟩], fun _ => true,
      some 77, true⟩
    100 15 [⟨1, "a", 0, none, none⟩, ⟨2, "b", 0, none, none⟩] (fun _ => rfl) rfl rfl

/-- C5 counterexample: two unmuted, always-in-window destinations; the
send to chat 1 raises.  The broadcast returns the raised exception to its
caller and chat 2 is never attempted — delivery is not independent per
destination and the failure is not caught inside the broadcast. -/
theorem c5_failure_stops_broadcast :
    broadcast_to_working_chats (fun c => c != 1) 0
      [⟨1, false, none, none, none⟩, ⟨2, false, none, none, none⟩] =
      ([], .error ()) := by
  rfl

/-- When every send succeeds, the broadcast loop delivers to exactly the
in-window rows, in order, and completes. -/
theorem broadcastRows_all_ok (sendOk : Int → Bool) (now : Int) :
    ∀ links : List LinkRow, (∀ l ∈ links, sendOk l.tg_chat_id = true) →
      broadcastRows sendOk now links =
        ((links.filter fun l =>
            in_window (broadcast_local_now now l.tz) l.work_from l.work_to).map
          fun l => l.tg_chat_id, .ok ())
  | [], _ => rfl
  | l :: ls, h => by
    have ih := broadcastRows_all_ok sendOk now ls fun x hx => h x (List.mem_cons_of_mem _ hx)
    by_cases hw : in_window (broadcast_local_now now l.tz) l.work_from l.work_to = true
    · simp [broadcastRows, hw, h l (List.mem_cons_self l ls), ih, List.filter_cons]
    · simp [broadcastRows, hw, ih, List.filter_cons]

/-- A raising send stops the loop: everything before the bad row that was
in window is delivered, the exception propagates, and nothing after the
bad row is attempted. -/
theorem broadcastRows_send_failure (sendOk : Int → Bool) (now : Int) (bad : LinkRow)
    (ls2 : List LinkRow)
    (hwbad : in_window (broadcast_local_now now bad.tz) bad.work_from bad.work_to = true)
    (hbad : sendOk bad.tg_chat_id = false) :
    ∀ ls1 : List LinkRow, (∀ l ∈ ls1, sendOk l.tg_chat_id = true) →
      broadcastRows sendOk now (ls1 ++ bad :: ls2) =
        ((ls1.filter fun l =>
            in_window (broadcast_local_now now l.tz) l.work_from l.work_to).map
          fun l => l.tg_chat_id, .error ())
  | [], _ => by simp [broadcastRows, hwbad, hbad]
  | l :: ls1, h => by
    have ih := broadcastRows_send_failure sendOk now bad ls2 hwbad hbad ls1
      fun x hx => h x (List.mem_cons_of_mem _ hx)
    by_cases hw : in_window (broadcast_local_now now l.tz) l.work_from l.work_to = true
    · simp [broadcastRows, hw, h l (List.mem_cons_self l ls1), ih, List.filter_cons]
    · simp [broadcastRows, hw, ih, List.filter_cons]

/-- C5 (amended): the broadcast first keeps the non-muted links (the SQL
filter), then walks them in order.  When every send succeeds each
non-muted in-window destination receives the message; but a transport
error at one destination propagates to the caller uncaught, and the
destinations after it are never attempted (see the counterexample). -/
theorem c5_broadcast_independence (sendOk : Int → Bool) (now : Int) :
    (∀ links : List LinkRow,
      broadcast_to_working_chats sendOk now links =
        broadcastRows sendOk now (links.filter fun l => !l.muted)) ∧
    (∀ links : List LinkRow,
      (∀ l ∈ links.filter (fun l => !l.muted), sendOk l.tg_chat_id = true) →
      broadcast_to_working_chats sendOk now links =
        (((links.filter fun l => !l.muted).filter fun l =>
            in_window (broadcast_local_now now l.tz) l.work_from l.work_to).map
          fun l => l.tg_chat_id, .ok ())) ∧
    (∀ (links ls1 ls2 : List LinkRow) (bad : LinkRow),
      links.filter (fun l => !l.muted) = ls1 ++ bad :: ls2 →
      (∀ l ∈ ls1, sendOk l.tg_chat_id = true) →
      in_window (broadcast_local_now now bad.tz) bad.work_from bad.work_to = true →
      sendOk bad.tg_chat_id = false →
      broadcast_to_working_chats sendOk now links =
        ((ls1.filter fun l =>
            in_window (broadcast_local_now now l.tz) l.work_from l.work_to).map
          fun l => l.tg_chat_id, .error ())) := by
  refine ⟨fun links => rfl, ?_, ?_⟩
  · intro links h
    exact broadcastRows_all_ok sendOk now _ h
  · intro links ls1 ls2 bad hsplit h1 hwbad hbad
    unfold broadcast_to_working_chats
    rw [hsplit]
    exact broadcastRows_send_failure sendOk now bad ls2 hwbad hbad ls1 h1

/-- C5 witness: with both sends succeeding, both unmuted in-window
destinations are delivered to; with the first send raising, the split
form of the amended claim yields the aborted result. -/
theorem c5_broadcast_independence_witness :
    broadcast_to_working_chats (fun _ => true) 0
      [⟨1, false, none, none, none⟩, ⟨2, false, none, none, none⟩] = ([1, 2], .ok ()) ∧
    broadcast_to_working_chats (fun c => c != 1) 0
      [⟨1, false, none, none, none⟩, ⟨2, false, none, none, none⟩] = ([], .error ()) := by
  constructor
  · have h := (c5_broadcast_independence (fun _ => true) 0).2.1
      [⟨1, false, none, none, none⟩, ⟨2, false, none, none, none⟩] (by decide)
    simpa using h
  · have h := (c5_broadcast_independence (fun c => c != 1) 0).2.2
      [⟨1, false, none, none, none⟩, ⟨2, false, none, none, none⟩]
      [] [⟨2, false, none, none, none⟩] ⟨1, false, none, none, none⟩
      (by decide) (by decide) (by decide) (by decide)
    simpa using h

/-- Rows after the `last_reminder` update originate from the store. -/
theorem comesFrom_set {store : List ReminderRow} {acc : Nat} {chat : String} {now : Int}
    {r : ReminderRow} (h : r ∈ set_last_reminder store acc chat now) :
    comesFrom store now r := by
  obtain ⟨x, hx, hfx⟩ := List.mem_map.mp h
  by_cases hkx : hasKey acc chat x = true
  · exact ⟨x, hx, Or.inr (by rw [← hfx]; simp [hkx])⟩
  · exact ⟨x, hx, Or.inl (by rw [← hfx]; simp [hkx])⟩

/-- Rows after a delete originate from the store. -/
theorem comesFrom_delete {store : List ReminderRow} {acc : Nat} {chat : String} {now : Int}
    {r : ReminderRow} (h : r ∈ delete_reminder store acc chat) : comesFrom store now r :=
  ⟨r, (List.mem_filter.mp h).1, Or.inl rfl⟩

/-- Origin tracking composes across successive store states. -/
theorem comesFrom_trans {s1 s2 : List ReminderRow} {now : Int} {r : ReminderRow}
    (h : comesFrom s2 now r) (hall : ∀ x ∈ s2, comesFrom s1 now x) :
    comesFrom s1 now r := by
  obtain ⟨r0, hr0, hor⟩ := h
  obtain ⟨r1, hr1, hor1⟩ := hall r0 hr0
  rcases hor with h2 | h2 <;> rcases hor1 with h3 | h3
  · exact ⟨r1, hr1, Or.inl (h2.trans h3)⟩
  · exact ⟨r1, hr1, Or.inr (h2.trans h3)⟩
  · exact ⟨r1, hr1, Or.inr (by rw [h2, h3])⟩
  · exact ⟨r1, hr1, Or.inr (by rw [h2, h3])⟩

/-- One row's processing only keeps rows, deletes rows, or stamps
`last_reminder = now`. -/
theorem remindStep_comesFrom (env : TickEnv) (now : Int) (store : List ReminderRow)
    (row : ReminderRow) (s : List Sent) (store' : List ReminderRow)
    (h : remindStep env now store row = (s, .ok store')) :
    ∀ r ∈ store', comesFrom store now r := by
  intro r hr
  cases hst : env.statusOf (env.userOf row.account_id) row.avito_chat_id with
  | buyer =>
    rw [remindStep, hst] at h
    rcases hn : notify_linked_chats_in_hours env.sendOk now (env.linksOf row.account_id) with
      ⟨ds, res⟩
    rw [hn] at h
    cases res with
    | error e => simp at h
    | ok n =>
      by_cases hz : n = 0
      · simp [hz] at h
        rw [← h.2] at hr
        exact ⟨r, hr, Or.inl rfl⟩
      · simp [hz] at h
        rw [← h.2] at hr
        exact comesFrom_set hr
  | seller =>
    rw [remindStep, hst] at h
    simp at h
    rw [← h.2] at hr
    exact comesFrom_delete hr
  | unknown =>
    rw [remindStep, hst] at h
    cases hsome : env.adminChatId with
    | none => simp [send_telegram, hsome] at h
    | some a =>
      cases hok : env.adminHttpOk with
      | false => simp [send_telegram, hsome, hok] at h
      | true =>
        simp [send_telegram, hsome, hok] at h
        rw [← h.2] at hr
        exact comesFrom_set hr

/-- The whole tick only keeps rows, deletes rows, or stamps
`last_reminder = now`. -/
theorem remindRows_comesFrom (env : TickEnv) (now : Int) :
    ∀ (rows store : List ReminderRow) (r : ReminderRow),
      r ∈ (remindRows env now store rows).store → comesFrom store now r
  | [], _, r, h => ⟨r, h, Or.inl rfl⟩
  | row :: rest, store, r, h => by
    rcases hstep : remindStep env now store row with ⟨s, res⟩
    cases res with
    | error e =>
      simp [remindRows, hstep] at h
      exact ⟨r, h, Or.inl rfl⟩
    | ok store' =>
      simp [remindRows, hstep] at h
      exact comesFrom_trans (remindRows_comesFrom env now rest store' r h)
        (remindStep_comesFrom env now store row s store' hstep)

/-- Only rows of the due snapshot are ever examined by a tick. -/
theorem remindRows_examined_sub (env : TickEnv) (now : Int) :
    ∀ (rows store : List ReminderRow) (r : ReminderRow),
      r ∈ (remindRows env now store rows).examined → r ∈ rows
  | [], _, r, h => by simp [remindRows] at h
  | row :: rest, store, r, h => by
    rcases hstep : remindStep env now store row with ⟨s, res⟩
    cases res with
    | error e =>
      simp [remindRows, hstep] at h
      simp [h]
    | ok store' =>
      simp [remindRows, hstep] at h
      rcases h with h | h
      · simp [h]
      · exact List.mem_cons_of_mem _ (remindRows_examined_sub env now rest store' r h)

/-- C8: re-notify monotonicity.  (1) A due row with a previous
`last_reminder = p` satisfies `p <= now` whenever the interval is
nonnegative, so the stamped value `now` never moves `last_reminder`
backwards.  (2) A row freshly stamped at time `t` is selected as due at a
later tick time `u` only when a full interval elapsed, so the same
conversation is never re-notified twice within one interval.  (3) The
only value a tick ever writes into `last_reminder` is its own `now`:
every row of the final store is an initial row, unchanged or stamped with
`some now`.  (4) A tick examines only rows that satisfy the due
predicate `last_reminder IS NULL OR now - last_reminder >= interval`. -/
theorem c8_renotify_monotonicity (env : TickEnv) (now interval : Int)
    (store : List ReminderRow) :
    (∀ (row : ReminderRow) (p : Int), 0 ≤ interval → isDue now interval row = true →
        row.last_reminder = some p → p ≤ now) ∧
    (∀ (row : ReminderRow) (t u : Int),
        isDue u interval {row with last_reminder := some t} = true → interval ≤ u - t) ∧
    (∀ r ∈ (remind_loop env now interval store).store, comesFrom store now r) ∧
    (∀ r ∈ (remind_loop env now interval store).examined, isDue now interval r = true) := by
  refine ⟨?_, ?_, ?_, ?_⟩
  · intro row p hi hdue hlr
    rw [isDue, hlr] at hdue
    simp at hdue
    omega
  · intro row t u hdue
    rw [isDue] at hdue
    simp at hdue
    exact hdue
  · intro r hr
    exact remindRows_comesFrom env now _ store r hr
  · intro r hr
    have := remindRows_examined_sub env now _ store r hr
    exact (List.mem_filter.mp this).2

/-- C8 witness: with interval 15 a due row previously stamped at 3 is
examined at tick time 20 and 3 <= 20; a row stamped at 3 is due at 20
only because 15 <= 20 - 3; the rows of a concrete completed tick all
originate from the initial store; and examined rows are due. -/
theorem c8_renotify_monotonicity_witness :
    (3 : Int) ≤ 20 ∧ (15 : Int) ≤ 20 - 3 ∧
    comesFrom [(⟨1, "a", 0, some 3, none⟩ : ReminderRow)] 20 ⟨1, "a", 0, some 20, none⟩ := by
  have h := c8_renotify_monotonicity
    ⟨fun _ _ => .buyer, id, fun _ => [⟨5, false, none, none, none⟩], fun _ => true,
      some 77, true⟩
    20 15 [⟨1, "a", 0, some 3, none⟩]
  refine ⟨h.1 ⟨1, "a", 0, some 3, none⟩ 3 (by decide) (by decide) rfl,
    h.2.1 ⟨1, "a", 0, none, none⟩ 3 20 (by decide), ?_⟩
  exact h.2.2.1 ⟨1, "a", 0, some 20, none⟩ (by decide)
